import Mathlib

/-!
Shallow embedding of the real-time collaboration client
(`useCollaboration` hook, `DocumentDetailPage.handleContentChange`,
`Avatar.getColorFromName`) of the Arnms/real-time-collaboration-front
repository, together with theorems settling the spec claims about the
synchronization engine, presence tracker, session controller, activity
broadcaster and avatar color assignment.

Conventions of the embedding:
* Each socket event handler of `useCollaboration` becomes a pure function
  `CollaborationState → CollaborationState × List Effect`; the `Effect`
  list records, in program order, the outgoing socket emissions, presentation
  callbacks (`onDocumentUpdate`, `onError`), toasts, console logs and timer
  scheduling the handler performs.
* `new Date()` timestamps are modelled by an explicit `now : Nat` parameter
  (milliseconds); `setTimeout`/`clearTimeout` become an `Option Nat` expiry
  stored in the state plus an explicit fire function.
* The presence/absence of the optional `onDocumentUpdate` / `onError`
  callbacks is a `Bool` parameter; when the source would invoke the callback,
  the handler emits the corresponding `Effect`.
* JavaScript 32-bit bitwise arithmetic is modelled on `Int` with explicit
  wrapping (`toInt32`), and `x || 1` on numbers with its falsy-zero semantics.
-/

namespace RTCollab

/-- `CollaborationUser` from `src/types/collaboration.types.ts`. -/
structure CollaborationUser where
  id : String
  username : String
  color : String
  isTyping : Option Bool := none
  cursorPosition : Option Nat := none
deriving Repr, DecidableEq

/-- The `type` field of a `TextOperation` (`"insert" | "delete" | "retain"`). -/
inductive OpType where
  | insert
  | delete
  | retain
deriving Repr, DecidableEq

/-- `TextOperation` from `src/types/collaboration.types.ts` (the
`attributes` record is never read by the embedded code and is omitted). -/
structure TextOperation where
  type : OpType
  position : Nat
  content : Option String := none
  length : Option Nat := none
deriving Repr, DecidableEq

/-- The `document` payload of a `document-joined` event. -/
structure JoinedDocument where
  id : String
  title : String
  content : String
  version : Int
deriving Repr, DecidableEq

/-- `DocumentJoinedData` from `src/types/collaboration.types.ts`. -/
structure DocumentJoinedData where
  document : JoinedDocument
  user : CollaborationUser
  permission : String
deriving Repr, DecidableEq

/-- `TextChangedData` from `src/types/collaboration.types.ts`. -/
structure TextChangedData where
  operation : TextOperation
  version : Int
  author : CollaborationUser
  timestamp : String
deriving Repr, DecidableEq

/-- `UserJoinedData`: payload of a `user-joined` event. -/
structure UserJoinedData where
  user : CollaborationUser
deriving Repr, DecidableEq

/-- `OnlineUsersData`: payload of an `online-users` event. -/
structure OnlineUsersData where
  users : List CollaborationUser
deriving Repr, DecidableEq

/-- `CursorMovedData`: payload of a `cursor-moved` event. -/
structure CursorMovedData where
  user : CollaborationUser
  position : Nat
  timestamp : String
deriving Repr, DecidableEq

/-- Payload of a `typing-status-changed` event. -/
structure TypingStatusChangedData where
  user : CollaborationUser
  isTyping : Bool
  timestamp : String
deriving Repr, DecidableEq

/-- The `connectionStatus` values of the hook state. -/
inductive ConnectionStatus where
  | connected
  | connecting
  | disconnected
deriving Repr, DecidableEq

/-- `CollaborationState` from `useCollaboration` (`lastSyncTime` is a
millisecond clock reading instead of a `Date`). -/
structure CollaborationState where
  isConnected : Bool
  connectionStatus : ConnectionStatus
  onlineUsers : List CollaborationUser
  documentVersion : Int
  lastSyncTime : Option Nat
deriving Repr, DecidableEq

/-- The initial `useState` value of the hook. -/
def initialState : CollaborationState :=
  { isConnected := false
  , connectionStatus := ConnectionStatus.disconnected
  , onlineUsers := []
  , documentVersion := 1
  , lastSyncTime := none }

/-- Observable actions a handler performs besides updating the hook state:
socket emissions, presentation callbacks, toasts, console logs, and timer
scheduling (`setTimeout` delays in milliseconds). -/
inductive Effect where
  | emitJoinDocument (documentId : String)
  | emitTextChange (documentId : String) (operation : TextOperation) (version : Int)
  | emitCursorPosition (documentId : String) (position : Nat) (selStart selEnd : Option Nat)
  | emitTypingStatus (documentId : String) (isTyping : Bool)
  | onDocumentUpdate (content : String) (version : Int)
  | onError (message : String)
  | toastInfo (title message : String)
  | toastError (title message : String)
  | consoleLog (message : String)
  | scheduleReconnect (delayMs : Nat)
deriving Repr, DecidableEq

/-- `socket.on("connect", ...)`: marks the hook connected, stamps
`lastSyncTime`, and emits `join-document` for the current document. -/
def onConnect (documentId : String) (now : Nat) (st : CollaborationState) :
    CollaborationState × List Effect :=
  ({ st with isConnected := true
           , connectionStatus := ConnectionStatus.connected
           , lastSyncTime := some now },
   [Effect.consoleLog "WebSocket connected", Effect.emitJoinDocument documentId])

/-- `socket.on("connect_error", ...)`: marks the hook disconnected and, when
the `onError` callback was supplied, reports the fixed failure message.  No
reconnect is scheduled here. -/
def onConnectError (hasOnError : Bool) (st : CollaborationState) :
    CollaborationState × List Effect :=
  ({ st with isConnected := false
           , connectionStatus := ConnectionStatus.disconnected },
   if hasOnError then [Effect.onError "실시간 연결에 실패했습니다."] else [])

/-- `socket.on("disconnect", reason)`: marks the hook disconnected; only when
the server initiated the disconnect (`reason === "io server disconnect"`) a
reconnect is scheduled with a fixed 2000 ms `setTimeout`. -/
def onDisconnect (reason : String) (st : CollaborationState) :
    CollaborationState × List Effect :=
  ({ st with isConnected := false
           , connectionStatus := ConnectionStatus.disconnected },
   if reason = "io server disconnect" then [Effect.scheduleReconnect 2000] else [])

/-- `socket.on("document-joined", ...)`: records the delivered document
version, stamps `lastSyncTime`, and surfaces the delivered content and
version through `onDocumentUpdate` when that callback was supplied.  The
connection status is not changed here. -/
def onDocumentJoined (hasOnDocumentUpdate : Bool) (data : DocumentJoinedData)
    (now : Nat) (st : CollaborationState) : CollaborationState × List Effect :=
  ({ st with documentVersion := data.document.version
           , lastSyncTime := some now },
   if hasOnDocumentUpdate then
     [Effect.onDocumentUpdate data.document.content data.document.version]
   else [])

/-- `socket.on("user-joined", ...)`: appends the delivered user to
`onlineUsers` (no check against the local user) and shows a toast. -/
def onUserJoined (data : UserJoinedData) (st : CollaborationState) :
    CollaborationState × List Effect :=
  ({ st with onlineUsers := st.onlineUsers ++ [data.user] },
   [Effect.toastInfo "사용자 참여" (data.user.username ++ "님이 참여했습니다.")])

/-- `socket.on("user-left", ...)`: removes every entry with the departed
user's id from `onlineUsers` and shows a toast. -/
def onUserLeft (leftId leftUsername : String) (st : CollaborationState) :
    CollaborationState × List Effect :=
  ({ st with onlineUsers := st.onlineUsers.filter (fun u => u.id ≠ leftId) },
   [Effect.toastInfo "사용자 떠남" (leftUsername ++ "님이 나갔습니다.")])

/-- `socket.on("online-users", ...)`: replaces `onlineUsers` wholesale with
the delivered list. -/
def onOnlineUsers (data : OnlineUsersData) (st : CollaborationState) :
    CollaborationState × List Effect :=
  ({ st with onlineUsers := data.users },
   [Effect.consoleLog "Online users updated"])

/-- `socket.on("text-changed", ...)`: sets `documentVersion` to the delivered
version unconditionally (no staleness or author check guards the version) and
stamps `lastSyncTime`.  When the author differs from the local user and the
`onDocumentUpdate` callback was supplied, the handler only logs the change
(the body is a TODO); it never invokes `onDocumentUpdate`. -/
def onTextChanged (localUser : CollaborationUser) (hasOnDocumentUpdate : Bool)
    (data : TextChangedData) (now : Nat) (st : CollaborationState) :
    CollaborationState × List Effect :=
  ({ st with documentVersion := data.version
           , lastSyncTime := some now },
   if data.author.id ≠ localUser.id ∧ hasOnDocumentUpdate = true then
     [Effect.consoleLog ("Received text change from: " ++ data.author.username)]
   else [])

/-- `socket.on("cursor-moved", ...)`: when the mover is not the local user,
updates that user's `cursorPosition` in `onlineUsers`; a self event leaves the
state untouched. -/
def onCursorMoved (localUser : CollaborationUser) (data : CursorMovedData)
    (st : CollaborationState) : CollaborationState × List Effect :=
  if data.user.id ≠ localUser.id then
    ({ st with onlineUsers := st.onlineUsers.map (fun u =>
        if u.id = data.user.id then { u with cursorPosition := some data.position }
        else u) },
     [Effect.consoleLog "Cursor moved"])
  else (st, [Effect.consoleLog "Cursor moved"])

/-- `socket.on("typing-status-changed", ...)`: when the typist is not the
local user, updates that user's `isTyping` flag in `onlineUsers`; a self event
leaves the state untouched. -/
def onTypingStatusChanged (localUser : CollaborationUser)
    (data : TypingStatusChangedData) (st : CollaborationState) :
    CollaborationState × List Effect :=
  if data.user.id ≠ localUser.id then
    ({ st with onlineUsers := st.onlineUsers.map (fun u =>
        if u.id = data.user.id then { u with isTyping := some data.isTyping }
        else u) },
     [Effect.consoleLog "Typing status changed"])
  else (st, [Effect.consoleLog "Typing status changed"])

/-- `sendTextChange` from the hook: emits `text-change` with the given
operation and version when the socket is connected, otherwise does nothing. -/
def sendTextChange (connected : Bool) (documentId : String)
    (operation : TextOperation) (version : Int) : List Effect :=
  if connected then [Effect.emitTextChange documentId operation version] else []

/-- `sendTypingStatus` from the hook: emits `typing-status` when connected. -/
def sendTypingStatus (connected : Bool) (documentId : String) (isTyping : Bool) :
    List Effect :=
  if connected then [Effect.emitTypingStatus documentId isTyping] else []

/-- A `{start, end}` text selection (`end` is a Lean keyword, so the field is
named `endPos`). -/
structure Selection where
  start : Nat
  endPos : Nat
deriving Repr, DecidableEq

/-- The pieces of `DocumentDetailPage` state that `handleContentChange`
reads or writes: the edited buffer, the local `isTyping` flag, and the pending
typing-stop timer, stored as its absolute expiry time in milliseconds
(`none` = no timer pending, mirroring `clearTimeout`/`setTimeout`). -/
structure EditorState where
  documentContent : String
  isTyping : Bool
  typingTimeout : Option Nat
deriving Repr, DecidableEq

/-- JavaScript `document?.version || 1`: `undefined` and the falsy number `0`
both give `1`; every other version is passed through. -/
def jsVersionOrOne (version : Option Int) : Int :=
  match version with
  | none => 1
  | some v => if v = 0 then 1 else v

/-- `handleContentChange(newContent)` from `DocumentDetailPage`, at time
`now` (ms): stores the new buffer; on the first change of a typing burst
sends `typing-status: true`; cancels any pending typing-stop timer and starts
a fresh 1000 ms one; and, when connected with edit permission, sends a single
`text-change` whose operation packages the entire new content at the current
selection start, tagged `document?.version || 1`. -/
def handleContentChange (isConnected canEdit : Bool) (currentSelection : Selection)
    (docVersion : Option Int) (documentId : String) (now : Nat)
    (newContent : String) (st : EditorState) : EditorState × List Effect :=
  ({ documentContent := newContent
   , isTyping := if st.isTyping = false ∧ isConnected = true then true else st.isTyping
   , typingTimeout := some (now + 1000) },
   (if st.isTyping = false ∧ isConnected = true then
      sendTypingStatus isConnected documentId true
    else [])
   ++ (if isConnected = true ∧ canEdit = true then
         sendTextChange isConnected documentId
           { type := OpType.insert
           , position := currentSelection.start
           , content := some newContent
           , length := none }
           (jsVersionOrOne docVersion)
       else []))

/-- Expiry of the typing-stop `setTimeout` scheduled by
`handleContentChange`: a timer pending for exactly time `t` fires, clears
`isTyping`, and sends `typing-status: false` when connected; a cancelled or
rescheduled timer (expiry ≠ `t`) never fires. -/
def typingTimerFire (isConnected : Bool) (documentId : String) (t : Nat)
    (st : EditorState) : EditorState × List Effect :=
  if st.typingTimeout = some t then
    ({ st with isTyping := false, typingTimeout := none },
     sendTypingStatus isConnected documentId false)
  else (st, [])

/-- The fixed 17-color palette of `Avatar.getColorFromName`. -/
def avatarColors : List String :=
  [ "bg-red-500", "bg-orange-500", "bg-amber-500", "bg-yellow-500"
  , "bg-lime-500", "bg-green-500", "bg-emerald-500", "bg-teal-500"
  , "bg-cyan-500", "bg-sky-500", "bg-blue-500", "bg-indigo-500"
  , "bg-violet-500", "bg-purple-500", "bg-fuchsia-500", "bg-pink-500"
  , "bg-rose-500" ]

/-- JavaScript `ToInt32`: wrap an integer into the signed 32-bit range
`[-2^31, 2^31)`, as the `<<` and `& 0xffffffff` operators do. -/
def toInt32 (x : Int) : Int := (x + 2 ^ 31) % 2 ^ 32 - 2 ^ 31

/-- One iteration of the hash loop of `Avatar.getColorFromName`:
`hash = ((hash << 5) - hash + name.charCodeAt(i)) & 0xffffffff`, with
JavaScript semantics `hash << 5 = ToInt32(hash * 32)` and
`x & 0xffffffff = ToInt32(x)` (since `ToInt32(0xffffffff) = -1`). -/
def hashStep (hash : Int) (c : Nat) : Int :=
  toInt32 (toInt32 (hash * 32) - hash + c)

/-- The full hash of `Avatar.getColorFromName` over the UTF-16 code units of
the name, starting from `hash = 0`. -/
def nameHash (codeUnits : List Nat) : Int := codeUnits.foldl hashStep 0

/-- `Avatar.getColorFromName(name)`: returns the explicit `color` prop when
one was passed; otherwise picks `colors[Math.abs(hash) % colors.length]`
from the name's hash.  The name is modelled as its list of UTF-16 code
units (`charCodeAt` values). -/
def getColorFromName (color : Option String) (codeUnits : List Nat) : String :=
  match color with
  | some c => c
  | none => avatarColors.getD ((nameHash codeUnits).natAbs % avatarColors.length) ""

/-- Predicate picking the `text-change` emissions out of an effect list. -/
def isEmitTextChange : Effect → Bool
  | Effect.emitTextChange _ _ _ => true
  | _ => false

/-- Sample local user for concrete scenarios. -/
def uLocal : CollaborationUser :=
  { id := "u1", username := "alice", color := "bg-red-500" }

/-- Sample remote user for concrete scenarios. -/
def uRemote : CollaborationUser :=
  { id := "u2", username := "bob", color := "bg-blue-500" }

/-- A remote `text-changed` payload carrying version 5. -/
def opV5 : TextChangedData :=
  { operation := { type := OpType.insert, position := 0, content := some "hello" }
  , version := 5, author := uRemote, timestamp := "t1" }

/-- A remote `text-changed` payload carrying version 3 (older than `opV5`). -/
def opV3 : TextChangedData :=
  { operation := { type := OpType.insert, position := 0, content := some "old" }
  , version := 3, author := uRemote, timestamp := "t2" }

/-- A self-authored `text-changed` payload carrying version 7. -/
def opSelfV7 : TextChangedData :=
  { operation := { type := OpType.insert, position := 0, content := some "mine" }
  , version := 7, author := uLocal, timestamp := "t3" }

/-- Hook state at document version 4 (client B of the end-to-end scenario). -/
def stVersion4 : CollaborationState :=
  { initialState with documentVersion := 4 }

/-- A connected hook state at document version 5. -/
def stConnected : CollaborationState :=
  { isConnected := true, connectionStatus := ConnectionStatus.connected
  , onlineUsers := [], documentVersion := 5, lastSyncTime := some 100 }

/-- A self `cursor-moved` payload. -/
def cdSelf : CursorMovedData := { user := uLocal, position := 3, timestamp := "t4" }

/-- A self `typing-status-changed` payload. -/
def tdSelf : TypingStatusChangedData :=
  { user := uLocal, isTyping := true, timestamp := "t5" }

/-- An editor state before any typing burst. -/
def idleEditor : EditorState :=
  { documentContent := "", isTyping := false, typingTimeout := none }

/-!  Theorems settling the claims. -/

/-- C1 counterexample: starting from the initial state (version 1), the
`text-changed` handler applied to an operation with version 5 and then to an
operation with version 3 leaves `documentVersion = 3`: an operation whose
version (3) is ≤ the current version (5) is not discarded as stale — it
changes the session state and makes `currentVersion` decrease, so the claimed
monotonicity fails on this two-step `applyRemote` sequence. -/
theorem C1_counterexample :
    (onTextChanged uLocal true opV5 10 initialState).1.documentVersion = 5 ∧
    (onTextChanged uLocal true opV3 20
        (onTextChanged uLocal true opV5 10 initialState).1).1.documentVersion = 3 ∧
    ¬ (5 : Int) ≤ 3 ∧
    (onTextChanged uLocal true opV3 20
        (onTextChanged uLocal true opV5 10 initialState).1).1 ≠
      (onTextChanged uLocal true opV5 10 initialState).1 := by
  decide

/-- C1 (amended): the `text-changed` handler performs no staleness check at
all — it sets `documentVersion` to the delivered operation's version
unconditionally, so after any call `currentVersion` equals that operation's
version (and is therefore not monotone), and replaying the same operation
twice produces the same version-setting effect both times rather than
Applied-then-Stale. -/
theorem C1_amended (localUser : CollaborationUser) (hasCb : Bool)
    (data : TextChangedData) (now1 now2 : Nat) (st : CollaborationState) :
    (onTextChanged localUser hasCb data now1 st).1.documentVersion = data.version ∧
    (onTextChanged localUser hasCb data now2
        (onTextChanged localUser hasCb data now1 st).1).1.documentVersion
      = data.version :=
  ⟨rfl, rfl⟩

/-- C2: evaluating the `text-changed` handler at the end-to-end scenario's
failing input (client B at version 4 receives version 5 from another author)
shows the version does become 5, but the handler's only effect is a console
log — no `onDocumentUpdate` effect is emitted, so the displayed content is
never replaced with the pushed content, contradicting the claim's
document-update path (the source body is an unimplemented TODO). -/
theorem C2_code_eval :
    (onTextChanged uLocal true opV5 10 stVersion4).1.documentVersion = 5 ∧
    (onTextChanged uLocal true opV5 10 stVersion4).2 =
      [Effect.consoleLog "Received text change from: bob"] := by
  decide

/-- C3 counterexample: a `text-changed` operation authored by the local user
(`opSelfV7`, version 7) still mutates the session state: `documentVersion`
moves from 1 to 7, so self-echoed operations are not state-preserving as the
claim requires. -/
theorem C3_counterexample :
    (onTextChanged uLocal true opSelfV7 10 initialState).1.documentVersion = 7 ∧
    initialState.documentVersion = 1 ∧
    (onTextChanged uLocal true opSelfV7 10 initialState).1 ≠ initialState := by
  decide

/-- C3 (amended): for a self-authored `text-changed` operation the handler
emits nothing (no content is surfaced, not even the log), but the session
state still changes: `documentVersion` becomes the operation's version. -/
theorem C3_amended (localUser : CollaborationUser) (hasCb : Bool)
    (data : TextChangedData) (now : Nat) (st : CollaborationState)
    (h : data.author.id = localUser.id) :
    (onTextChanged localUser hasCb data now st).2 = [] ∧
    (onTextChanged localUser hasCb data now st).1.documentVersion = data.version := by
  refine ⟨?_, rfl⟩
  simp [onTextChanged, h]

/-- C3 amended witness: the self-authored version-7 operation applied to the
initial state emits nothing yet sets the version to 7. -/
theorem C3_amended_witness :
    (onTextChanged uLocal true opSelfV7 10 initialState).2 = [] ∧
    (onTextChanged uLocal true opSelfV7 10 initialState).1.documentVersion = 7 :=
  C3_amended uLocal true opSelfV7 10 initialState rfl

/-- C4: the `online-users` handler replaces the tracked presence list
wholesale with the delivered entries — the result equals `data.users`
exactly (hence as a set), for every prior state, and two arbitrary prior
states yield the same result, so no prior incremental join/leave/cursor/typing
event influences the outcome and users absent from the list are gone. -/
theorem C4_bulk_sync_replaces (st st2 : CollaborationState)
    (data : OnlineUsersData) :
    (onOnlineUsers data st).1.onlineUsers = data.users ∧
    (onOnlineUsers data st).1.onlineUsers = (onOnlineUsers data st2).1.onlineUsers :=
  ⟨rfl, rfl⟩

/-- C5 counterexample: after a transport closure with reason
`"transport close"` the client does transition to disconnected but schedules
no reconnect at all; a `connect_error` schedules no reconnect either (only an
`onError` callback); and the only self-scheduled reconnect — the
server-initiated-disconnect case — uses a fixed 2000 ms delay, not the
claimed ≈1000 ms first retry of an exponential backoff. -/
theorem C5_counterexample :
    (onDisconnect "transport close" stConnected).1.connectionStatus
        = ConnectionStatus.disconnected ∧
    (onDisconnect "transport close" stConnected).2 = [] ∧
    (onConnectError true stConnected).2 = [Effect.onError "실시간 연결에 실패했습니다."] ∧
    (onDisconnect "io server disconnect" stConnected).2
        = [Effect.scheduleReconnect 2000] ∧
    (2000 : Nat) ≠ 1000 := by
  decide

/-- C5 (amended): on any disconnect the client transitions to Disconnected;
a reconnect is scheduled only when the closure reason is exactly
`"io server disconnect"`, and then with a fixed 2000 ms delay (no exponential
backoff, no jitter, no retry for other reasons); a connect error likewise
transitions to Disconnected and schedules nothing, only invoking the
`onError` callback when present. -/
theorem C5_amended (reason : String) (hasOnError : Bool) (st : CollaborationState) :
    (onDisconnect reason st).1.connectionStatus = ConnectionStatus.disconnected ∧
    (onDisconnect reason st).1.isConnected = false ∧
    (onDisconnect reason st).2 =
      (if reason = "io server disconnect" then [Effect.scheduleReconnect 2000] else []) ∧
    (onConnectError hasOnError st).1.connectionStatus = ConnectionStatus.disconnected ∧
    (onConnectError hasOnError st).2 =
      (if hasOnError then [Effect.onError "실시간 연결에 실패했습니다."] else []) :=
  ⟨rfl, rfl, rfl, rfl, rfl⟩

/-- C6: when connected with edit permission, a local content change emits
exactly one `text-change`; its operation packages the entire new content
(`content = newContent`) as a single insert at the selection start, tagged
with the current document version `v` unchanged (no increment), and the
buffer is set to the new content. -/
theorem C6_full_content_single_op (sel : Selection) (v : Int) (documentId : String)
    (now : Nat) (newContent : String) (st : EditorState) (hv : v ≠ 0) :
    (handleContentChange true true sel (some v) documentId now newContent st).2.filter
        isEmitTextChange =
      [Effect.emitTextChange documentId
        { type := OpType.insert, position := sel.start
        , content := some newContent, length := none } v] ∧
    (handleContentChange true true sel (some v) documentId now newContent st).1.documentContent
      = newContent := by
  refine ⟨?_, rfl⟩
  by_cases hty : st.isTyping = false <;>
    simp [handleContentChange, sendTextChange, sendTypingStatus, isEmitTextChange,
      jsVersionOrOne, hv, hty]

/-- C6 witness: a concrete edit at version 4 emits the single full-content
operation tagged 4. -/
theorem C6_full_content_single_op_witness :
    (handleContentChange true true { start := 2, endPos := 2 } (some 4) "d1" 0
        "hello world" idleEditor).2.filter isEmitTextChange =
      [Effect.emitTextChange "d1"
        { type := OpType.insert, position := 2
        , content := some "hello world", length := none } 4] ∧
    (handleContentChange true true { start := 2, endPos := 2 } (some 4) "d1" 0
        "hello world" idleEditor).1.documentContent = "hello world" :=
  C6_full_content_single_op { start := 2, endPos := 2 } 4 "d1" 0 "hello world"
    idleEditor (by decide)

/-- C7 counterexample: a `user-joined` event whose user is the local user is
not ignored — the handler appends the local user to the tracked presence
list unconditionally, changing it from `[]` to `[uLocal]`. -/
theorem C7_counterexample :
    (onUserJoined { user := uLocal } initialState).1.onlineUsers = [uLocal] ∧
    initialState.onlineUsers = [] ∧
    (onUserJoined { user := uLocal } initialState).1.onlineUsers
      ≠ initialState.onlineUsers := by
  decide

/-- C7 (amended): self `cursor-moved` and `typing-status-changed` events do
leave the state unchanged, but a `user-joined` event appends the delivered
user to the presence list unconditionally — including when it is the local
user. -/
theorem C7_amended (localUser : CollaborationUser) (cd : CursorMovedData)
    (td : TypingStatusChangedData) (jd : UserJoinedData) (st : CollaborationState)
    (h1 : cd.user.id = localUser.id) (h2 : td.user.id = localUser.id) :
    (onCursorMoved localUser cd st).1 = st ∧
    (onTypingStatusChanged localUser td st).1 = st ∧
    (onUserJoined jd st).1.onlineUsers = st.onlineUsers ++ [jd.user] := by
  refine ⟨?_, ?_, rfl⟩
  · simp [onCursorMoved, h1]
  · simp [onTypingStatusChanged, h2]

/-- C7 amended witness: concrete self cursor/typing events leave the initial
state unchanged while a remote join appends. -/
theorem C7_amended_witness :
    (onCursorMoved uLocal cdSelf initialState).1 = initialState ∧
    (onTypingStatusChanged uLocal tdSelf initialState).1 = initialState ∧
    (onUserJoined { user := uRemote } initialState).1.onlineUsers
      = initialState.onlineUsers ++ [uRemote] :=
  C7_amended uLocal cdSelf tdSelf { user := uRemote } initialState rfl rfl

/-- C8: after a content change at time `T` and another at `T + 500`, the
typing-stop timer is pending for exactly `T + 1500` (the second change
cancelled the first timer and restarted the 1000 ms countdown); no timer
expiry strictly before `T + 1500` emits anything, and the expiry at
`T + 1500` emits `typing-status: false` and clears the local typing flag. -/
theorem C8_typing_timer (T : Nat) (canEdit : Bool) (sel : Selection)
    (v : Option Int) (documentId : String) (c1 c2 : String) (st : EditorState) :
    ((handleContentChange true canEdit sel v documentId (T + 500) c2
        (handleContentChange true canEdit sel v documentId T c1 st).1).1.typingTimeout
      = some (T + 1500)) ∧
    (∀ t, t < T + 1500 →
      (typingTimerFire true documentId t
        (handleContentChange true canEdit sel v documentId (T + 500) c2
          (handleContentChange true canEdit sel v documentId T c1 st).1).1).2 = []) ∧
    ((typingTimerFire true documentId (T + 1500)
        (handleContentChange true canEdit sel v documentId (T + 500) c2
          (handleContentChange true canEdit sel v documentId T c1 st).1).1).2
      = [Effect.emitTypingStatus documentId false]) ∧
    ((typingTimerFire true documentId (T + 1500)
        (handleContentChange true canEdit sel v documentId (T + 500) c2
          (handleContentChange true canEdit sel v documentId T c1 st).1).1).1.isTyping
      = false) := by
  have hto : (handleContentChange true canEdit sel v documentId (T + 500) c2
      (handleContentChange true canEdit sel v documentId T c1 st).1).1.typingTimeout
      = some (T + 1500) := by
    simp only [handleContentChange]
  refine ⟨hto, ?_, ?_, ?_⟩
  · intro t ht
    have hne : ¬ (T + 1500 = t) := by omega
    simp [typingTimerFire, hto, hne]
  · simp [typingTimerFire, hto, sendTypingStatus]
  · simp [typingTimerFire, hto]

/-- C8 witness: with the first change at time 0 and the second at 500, the
timer is pending for 1500; firing at 1000 emits nothing, firing at 1500
emits `typing-status: false` and clears the flag. -/
theorem C8_typing_timer_witness :
    ((handleContentChange true true { start := 0, endPos := 0 } (some 1) "d1" 500 "ab"
        (handleContentChange true true { start := 0, endPos := 0 } (some 1) "d1" 0 "a"
          idleEditor).1).1.typingTimeout = some 1500) ∧
    ((typingTimerFire true "d1" 1000
        (handleContentChange true true { start := 0, endPos := 0 } (some 1) "d1" 500 "ab"
          (handleContentChange true true { start := 0, endPos := 0 } (some 1) "d1" 0 "a"
            idleEditor).1).1).2 = []) ∧
    ((typingTimerFire true "d1" 1500
        (handleContentChange true true { start := 0, endPos := 0 } (some 1) "d1" 500 "ab"
          (handleContentChange true true { start := 0, endPos := 0 } (some 1) "d1" 0 "a"
            idleEditor).1).1).2 = [Effect.emitTypingStatus "d1" false]) := by
  have h := C8_typing_timer 0 true { start := 0, endPos := 0 } (some 1) "d1" "a" "ab"
    idleEditor
  exact ⟨h.1, h.2.1 1000 (by omega), h.2.2.1⟩

/-- C9 counterexample: the transport-level `connect` handler alone already
sets the connection status to connected — before any `document-joined`
acknowledgement (the document version is still the initial 1, and no
document snapshot was recorded), refuting "Connected only upon receiving
document-joined". -/
theorem C9_counterexample :
    (onConnect "d1" 5 initialState).1.connectionStatus = ConnectionStatus.connected ∧
    (onConnect "d1" 5 initialState).1.documentVersion = 1 ∧
    initialState.connectionStatus = ConnectionStatus.disconnected := by
  decide

/-- C9 (amended): the session becomes connected on the transport `connect`
event itself, at which point it emits `join-document`; the later
`document-joined` event records the delivered version and surfaces
content/version through `onDocumentUpdate`, but leaves the connection status
untouched (it was already connected). -/
theorem C9_amended (documentId : String) (now now2 : Nat)
    (st : CollaborationState) (data : DocumentJoinedData) :
    (onConnect documentId now st).1.connectionStatus = ConnectionStatus.connected ∧
    (onConnect documentId now st).2 =
      [Effect.consoleLog "WebSocket connected", Effect.emitJoinDocument documentId] ∧
    (onDocumentJoined true data now2 st).1.documentVersion = data.document.version ∧
    (onDocumentJoined true data now2 st).1.connectionStatus = st.connectionStatus ∧
    (onDocumentJoined true data now2 st).2 =
      [Effect.onDocumentUpdate data.document.content data.document.version] :=
  ⟨rfl, rfl, rfl, rfl, rfl⟩

/-- C10: `getColorFromName` (with no explicit color prop) is a pure function
of the name's code units — two invocations on the same name yield the same
color, with no time, randomness or instance state in its inputs — and the
result is always drawn from the fixed 17-entry palette, so two clients
observing the same user compute the same color without coordination. -/
theorem C10_color_deterministic (cu1 cu2 : List Nat) (h : cu1 = cu2) :
    getColorFromName none cu1 = getColorFromName none cu2 ∧
    getColorFromName none cu1 ∈ avatarColors := by
  subst h
  refine ⟨rfl, ?_⟩
  unfold getColorFromName
  have hlen : (nameHash cu1).natAbs % avatarColors.length < avatarColors.length :=
    Nat.mod_lt _ (by decide)
  rw [List.getD_eq_getElem?_getD, List.getElem?_eq_getElem hlen]
  simp

/-- C10 witness: two computations of the color of "Alice" (code units
65,108,105,99,101) agree and land in the palette. -/
theorem C10_color_deterministic_witness :
    getColorFromName none [65, 108, 105, 99, 101]
      = getColorFromName none [65, 108, 105, 99, 101] ∧
    getColorFromName none [65, 108, 105, 99, 101] ∈ avatarColors :=
  C10_color_deterministic [65, 108, 105, 99, 101] [65, 108, 105, 99, 101] rfl

end RTCollab
